import Mathlib

/-!
# Verification of the fraud-detection training pipeline (`fd-pipeline-ml-training.py`)

Shallow embedding of the Airflow DAG `fd_jenkins_ec2_training_dag`:
the Jenkins build poller (`poll_jenkins_job`), the EC2 health monitor
(`check_ec2_status`), the remote SSH training client
(`run_training_via_paramiko`), the S3 log shipper (`write_logs_s3`) and the
instance lifecycle controller (the task chain
`jenkins_poll >> create >> check >> ip >> ssh >> terminate >> write_logs`
with `TriggerRule.ALL_DONE` on the terminate task).
-/

set_option autoImplicit false

namespace FraudPipeline

/-! ## External Job Poller: `poll_jenkins_job` (lines 72-103)

The task first queries the job API for the latest build number; any non-200
response there raises.  It then loops: fetch the build status; on a non-200
response it raises; on `building = false` it returns `True` when
`result == "SUCCESS"` and raises otherwise; while `building` it sleeps 30 s
and polls again.  We model each HTTP response to the build-status URL as a
`BuildResponse` and feed the loop a list of responses, counting the status
requests it performs. -/

structure BuildResponse where
  statusCode : Nat
  building : Bool
  result : String
deriving Repr, DecidableEq

structure JobResponse where
  statusCode : Nat
  lastBuildNumber : Nat
deriving Repr, DecidableEq

inductive PollOutcome where
  /-- the loop returned `True` after `requests` status requests -/
  | success (requests : Nat)
  /-- raised `Exception("Jenkins build failed!")` after `requests` status requests -/
  | jobFailed (requests : Nat)
  /-- raised `Exception("Failed to query Jenkins API: ...")` from the status loop -/
  | transportError (code : Nat) (requests : Nat)
  /-- the supplied response list ran out while the build was still running -/
  | stillPolling (requests : Nat)
deriving Repr, DecidableEq

/-- The `while True` polling loop of `poll_jenkins_job` (lines 90-103),
consuming one `BuildResponse` per iteration and threading the count of
status requests performed so far. -/
def pollBuildLoop : List BuildResponse → Nat → PollOutcome
  | [], n => .stillPolling n
  | r :: rest, n =>
    if r.statusCode = 200 then
      if r.building then
        pollBuildLoop rest (n + 1)
      else
        if r.result = "SUCCESS" then .success (n + 1)
        else .jobFailed (n + 1)
    else .transportError r.statusCode (n + 1)

/-- Task `poll_jenkins_job`: the initial job-API request followed by the
build-status polling loop. -/
def poll_jenkins_job (jobResp : JobResponse) (buildResponses : List BuildResponse) :
    PollOutcome :=
  if jobResp.statusCode = 200 then pollBuildLoop buildResponses 0
  else .transportError jobResp.statusCode 0

/-- Still-building responses are consumed one by one: the loop over
`pre ++ rest` with `pre` all `200`/`building` reaches `rest` having made
`pre.length` more requests. -/
theorem pollBuildLoop_append_building (pre rest : List BuildResponse) (n : Nat)
    (h : ∀ r ∈ pre, r.statusCode = 200 ∧ r.building = true) :
    pollBuildLoop (pre ++ rest) n = pollBuildLoop rest (n + pre.length) := by
  induction pre generalizing n with
  | nil => simp
  | cons r pre ih =>
    obtain ⟨h200, hb⟩ := h r (by simp)
    have hrest : ∀ x ∈ pre, x.statusCode = 200 ∧ x.building = true := by
      intro x hx; exact h x (by simp [hx])
    have hstep : pollBuildLoop ((r :: pre) ++ rest) n = pollBuildLoop (pre ++ rest) (n + 1) := by
      simp [pollBuildLoop, h200, hb]
    rw [hstep, ih (n + 1) hrest]
    congr 1
    simp [List.length_cons]
    omega

/-- If the loop returns success, some response in the list was a 200,
finished build with result `"SUCCESS"`, and every response before it was a
still-building 200. -/
theorem pollBuildLoop_success_shape (rs : List BuildResponse) (n m : Nat)
    (h : pollBuildLoop rs n = .success m) :
    ∃ pre r rest, rs = pre ++ r :: rest ∧
      (∀ p ∈ pre, p.statusCode = 200 ∧ p.building = true) ∧
      r.statusCode = 200 ∧ r.building = false ∧ r.result = "SUCCESS" := by
  induction rs generalizing n with
  | nil => simp [pollBuildLoop] at h
  | cons r rest ih =>
    by_cases h200 : r.statusCode = 200
    · by_cases hb : r.building = true
      · simp only [pollBuildLoop, h200, hb, if_true] at h
        obtain ⟨pre, r', rest', heq, hpre, hr⟩ := ih (n + 1) h
        exact ⟨r :: pre, r', rest', by simp [heq], by
          intro p hp
          rcases List.mem_cons.mp hp with hp | hp
          · subst hp; exact ⟨h200, hb⟩
          · exact hpre p hp, hr⟩
      · by_cases hres : r.result = "SUCCESS"
        · refine ⟨[], r, rest, by simp, by simp, h200, by simpa using hb, hres⟩
        · simp [pollBuildLoop, h200, hb, hres] at h
    · simp [pollBuildLoop, h200] at h

/-! ## Instance Health Monitor: `check_ec2_status` (lines 126-164)

Each call to `describe_instance_status` returns a (possibly empty) list of
per-instance status records; the task reads the head record's
`SystemStatus.Status` and `InstanceStatus.Status` and loops (sleeping 15 s)
until both equal `"ok"`.  An empty `InstanceStatuses` list is logged and
the loop retries.  We feed the loop a list of responses, each a
`List InstanceChecks`, and count the describe calls performed. -/

structure InstanceChecks where
  systemStatus : String
  instanceStatus : String
deriving Repr, DecidableEq

inductive HealthOutcome where
  /-- flag `passed_checks` became true and the task returned `True` -/
  | healthy (polls : Nat)
  /-- the supplied response list ran out with `passed_checks` still false -/
  | stillWaiting (polls : Nat)
deriving Repr, DecidableEq

/-- The `while not passed_checks` loop of `check_ec2_status`, consuming one
`describe_instance_status` response per iteration. -/
def check_ec2_status : List (List InstanceChecks) → Nat → HealthOutcome
  | [], polls => .stillWaiting polls
  | resp :: rest, polls =>
    match resp with
    | [] => check_ec2_status rest (polls + 1)
    | st :: _ =>
      if st.systemStatus = "ok" ∧ st.instanceStatus = "ok" then .healthy (polls + 1)
      else check_ec2_status rest (polls + 1)

/-- A response that does not report both sub-checks `"ok"` (including a
response with no status record at all). -/
def notReady (resp : List InstanceChecks) : Prop :=
  match resp with
  | [] => True
  | st :: _ => ¬(st.systemStatus = "ok" ∧ st.instanceStatus = "ok")

instance (resp : List InstanceChecks) : Decidable (notReady resp) := by
  unfold notReady
  match resp with
  | [] => exact inferInstance
  | st :: _ => exact inferInstance

theorem check_skip_one (resp : List InstanceChecks) (rest : List (List InstanceChecks))
    (polls : Nat) (h : notReady resp) :
    check_ec2_status (resp :: rest) polls = check_ec2_status rest (polls + 1) := by
  cases resp with
  | nil => rfl
  | cons st tl =>
    have h' : ¬(st.systemStatus = "ok" ∧ st.instanceStatus = "ok") := h
    simp [check_ec2_status, h']

theorem check_skip_many (pre rest : List (List InstanceChecks)) (polls : Nat)
    (h : ∀ r ∈ pre, notReady r) :
    check_ec2_status (pre ++ rest) polls = check_ec2_status rest (polls + pre.length) := by
  induction pre generalizing polls with
  | nil => simp
  | cons r pre ih =>
    have hstep := check_skip_one r (pre ++ rest) polls (h r (by simp))
    have hrest : ∀ x ∈ pre, notReady x := fun x hx => h x (by simp [hx])
    calc check_ec2_status ((r :: pre) ++ rest) polls
        = check_ec2_status (pre ++ rest) (polls + 1) := hstep
      _ = check_ec2_status rest (polls + 1 + pre.length) := ih (polls + 1) hrest
      _ = check_ec2_status rest (polls + (r :: pre).length) := by
          congr 1; simp; omega

/-! ## Remote Job Client: `run_training_via_paramiko` (lines 196-239)

The task connects with a private key as user `ubuntu`, runs exactly one
composite command via `exec_command` (seven configuration environment
variables plus a `PATH` extension, then the `mlflow run` entry point),
prints the streamed stdout/stderr, re-raises any exception, and closes the
client in a `finally` block.  The command's exit status is never
inspected.  We model the external world as an `SshEnv`: whether `connect`
succeeds, whether `exec_command` opens its channel, and the remote
command's eventual exit status. -/

structure MlflowConfig where
  trackingUri : String
  experimentId : String
  awsAccessKeyId : String
  awsSecretAccessKey : String
  artifactRoot : String
  bucketName : String
  fileKey : String
deriving Repr, DecidableEq

inductive ShellStmt where
  | exportVar (name value : String)
  | invoke (cmdLine : String)
deriving Repr, DecidableEq

/-- The composite command string built at lines 213-223, statement by
statement. -/
def buildTrainingCommand (cfg : MlflowConfig) : List ShellStmt :=
  [ .exportVar "MLFLOW_TRACKING_URI" cfg.trackingUri,
    .exportVar "MLFLOW_EXPERIMENT_ID" cfg.experimentId,
    .exportVar "AWS_ACCESS_KEY_ID" cfg.awsAccessKeyId,
    .exportVar "AWS_SECRET_ACCESS_KEY" cfg.awsSecretAccessKey,
    .exportVar "ARTIFACT_ROOT" cfg.artifactRoot,
    .exportVar "BUCKET_NAME" cfg.bucketName,
    .exportVar "FILE_KEY" cfg.fileKey,
    .exportVar "PATH" "$PATH:/home/ubuntu/.local/bin",
    .invoke "mlflow run https://github.com/VeeraK81/pipeline-workflow --build-image" ]

/-- Names of the environment variables exported by a command. -/
def exportNames : List ShellStmt → List String
  | [] => []
  | .exportVar n _ :: rest => n :: exportNames rest
  | .invoke _ :: rest => exportNames rest

inductive SshError where
  /-- call `ssh_client.connect` raised -/
  | connectFailed
  /-- call `ssh_client.exec_command` raised (channel could not be opened) -/
  | execFailed
deriving Repr, DecidableEq

/-- External behaviour visible to one invocation of the task. -/
structure SshEnv where
  connectOk : Bool
  execChannelOk : Bool
  exitStatus : Nat
deriving Repr, DecidableEq

structure SshRunResult where
  outcome : Except SshError Unit
  connectAttempts : Nat
  execAttempts : Nat
  executedCommands : List (List ShellStmt)
  closed : Bool

/-- Task `run_training_via_paramiko`: one connect attempt, at most one
`exec_command`, exceptions re-raised after logging, client closed in
`finally`.  The exit status of the remote command is never read, so a
command that runs to completion yields `Except.ok` whatever its status. -/
def run_training_via_paramiko (cfg : MlflowConfig) (env : SshEnv) : SshRunResult :=
  if env.connectOk then
    if env.execChannelOk then
      { outcome := Except.ok ()
        connectAttempts := 1
        execAttempts := 1
        executedCommands := [buildTrainingCommand cfg]
        closed := true }
    else
      { outcome := Except.error SshError.execFailed
        connectAttempts := 1
        execAttempts := 1
        executedCommands := []
        closed := true }
  else
    { outcome := Except.error SshError.connectFailed
      connectAttempts := 1
      execAttempts := 0
      executedCommands := []
      closed := true }

/-! ## Artifact/Log Shipper: `write_logs_s3` (lines 253-318)

The task walks the base log folder; for every file it tries, in order:
read the modification time (`os.path.getmtime`, may raise), compare its
UTC date with today's, and if equal write the header line
`--- Log file: <path> ---\n` to the in-memory `StringIO`, then open and
read the file and append its content followed by `"\n\n"`.  Any exception
inside that per-file `try` is logged as a warning and the walk continues —
note the header is already written when `open`/`read` raise.  After the
walk, if `log_content.tell() > 0` the accumulated text is uploaded to S3
as one object (an upload failure propagates out of the task); otherwise
nothing is uploaded.

We model a file as its path, whether `getmtime` succeeds, its modification
date, whether `open`+`read` succeed, and its content, and the bundle as the
ordered list of strings written to the `StringIO` (whose concatenation is
the uploaded object and whose total length is `tell()`). -/

structure LogFile where
  path : String
  statOk : Bool
  mtimeDate : Nat
  readable : Bool
  content : String
deriving Repr, DecidableEq

/-- The per-file header line written at line 284. -/
def headerLine (p : String) : String := "--- Log file: " ++ p ++ " ---\n"

/-- The strings one file appends to the `StringIO`, per the per-file `try`
block (lines 281-289): nothing if `getmtime` raises or the date is not
today; header only if `open`/`read` raise; header, content and `"\n\n"`
otherwise. -/
def processFile (today : Nat) (f : LogFile) : List String :=
  if f.statOk then
    if f.mtimeDate = today then
      if f.readable then [headerLine f.path, f.content, "\n\n"]
      else [headerLine f.path]
    else []
  else []

/-- All strings written to the `StringIO` during the walk, in order. -/
def bundleChunks (today : Nat) (files : List LogFile) : List String :=
  files.flatMap (processFile today)

/-- Concatenation of the written strings: the value of
`log_content.getvalue()`. -/
def concatChunks : List String → String
  | [] => ""
  | c :: cs => c ++ concatChunks cs

/-- Value of `log_content.tell()` after the walk. -/
def bundleTell (today : Nat) (files : List LogFile) : Nat :=
  (concatChunks (bundleChunks today files)).length

inductive ShipError where
  /-- call `s3_hook.load_file_obj` raised; the task re-raises -/
  | uploadFailed
deriving Repr, DecidableEq

structure UploadReport where
  uploaded : Bool
  bytesShipped : Nat
  body : List String
deriving Repr, DecidableEq

/-- Task `write_logs_s3`: build the bundle, then upload it as one object iff
`tell() > 0` (`bundleTell` is exactly `log_content.tell()`); an upload
failure aborts the task. -/
def write_logs_s3 (today : Nat) (files : List LogFile) (uploadOk : Bool) :
    Except ShipError UploadReport :=
  if 0 < bundleTell today files then
    if uploadOk then
      Except.ok { uploaded := true
                  bytesShipped := bundleTell today files
                  body := bundleChunks today files }
    else Except.error ShipError.uploadFailed
  else
    Except.ok { uploaded := false, bytesShipped := 0, body := [] }

theorem concatChunks_length (l : List String) :
    (concatChunks l).length = (l.map String.length).sum := by
  induction l with
  | nil => rfl
  | cons c cs ih => simp [concatChunks, String.length_append, ih]

theorem concatChunks_append (a b : List String) :
    concatChunks (a ++ b) = concatChunks a ++ concatChunks b := by
  induction a with
  | nil => simp [concatChunks]
  | cons c cs ih => simp [concatChunks, ih, String.append_assoc]

/-- The header line is never the empty string. -/
theorem headerLine_length (p : String) : (headerLine p).length = 19 + p.length := by
  have h14 : ("--- Log file: " : String).length = 14 := by decide
  have h5 : (" ---\n" : String).length = 5 := by decide
  simp [headerLine, String.length_append, h14, h5]
  omega

/-! ## Instance Lifecycle Controller: the DAG task chain (lines 105-331)

The DAG wires `poll_jenkins_job >> create_ec2_instance >>
check_ec2_status >> get_ec2_public_ip >> run_training_via_paramiko >>
terminate_ec2_instance >> write_logs_s3` as a linear chain.  Every task
has the default trigger rule (run only when the upstream succeeded) except
`terminate_ec2_instance`, which has `TriggerRule.ALL_DONE`: it runs as
soon as its upstream has reached any terminal state.  Its `instance_ids`
argument is the Jinja template
`task_instance.xcom_pull(task_ids='create_ec2_instance')[0]`: it indexes
the create task's XCom at position 0, so when the create task never
succeeded (no XCom pushed) the template indexes `None` and the terminate
task fails during rendering, before any EC2 API call is issued.

We model one DAG run: an `Oracle` fixes each task's own outcome were it to
run, and the scheduler semantics of the linear chain assigns each task a
terminal state in order. -/

inductive TaskState where
  | success
  | failed
  | upstreamFailed
deriving Repr, DecidableEq

inductive TriggerRule where
  | allSuccess
  | allDone
deriving Repr, DecidableEq

/-- Terminal state assigned to a chained task from its trigger rule, its
upstream's terminal state and its own outcome were it to run.  In a
sequential run of a linear chain the upstream is always in a terminal
state by the time the task is considered, so `ALL_DONE` always fires. -/
def runChainTask : TriggerRule → TaskState → Bool → TaskState
  | .allSuccess, up, outcome =>
      if up = .success then (if outcome then .success else .failed)
      else .upstreamFailed
  | .allDone, _, outcome => if outcome then .success else .failed

/-- Per-task outcomes of one DAG run, were each task to run. -/
structure Oracle where
  pollOk : Bool
  createOk : Bool
  checkOk : Bool
  ipOk : Bool
  sshOk : Bool
  writeLogsOk : Bool
  instanceId : String
deriving Repr, DecidableEq

def pollStateOf (o : Oracle) : TaskState :=
  if o.pollOk then .success else .failed

def createStateOf (o : Oracle) : TaskState :=
  runChainTask .allSuccess (pollStateOf o) o.createOk

/-- The `return_value` XCom of `create_ec2_instance`: the list of created
instance ids, pushed only when the task succeeded. -/
def createXcom (o : Oracle) : Option (List String) :=
  if createStateOf o = .success then some [o.instanceId] else none

def checkStateOf (o : Oracle) : TaskState :=
  runChainTask .allSuccess (createStateOf o) o.checkOk

def ipStateOf (o : Oracle) : TaskState :=
  runChainTask .allSuccess (checkStateOf o) o.ipOk

def sshStateOf (o : Oracle) : TaskState :=
  runChainTask .allSuccess (ipStateOf o) o.sshOk

/-- Rendering of the `instance_ids` template
`xcom_pull(task_ids='create_ec2_instance')[0]`: `None[0]` (or `[][0]`)
raises, so rendering yields an id only when the create XCom holds one. -/
def renderInstanceIds (xcom : Option (List String)) : Option String :=
  match xcom with
  | some (i :: _) => some i
  | _ => none

/-- Terminal state of `terminate_ec2_instance` (trigger rule `ALL_DONE`):
it always runs; it succeeds iff its `instance_ids` template rendered. -/
def terminateStateOf (o : Oracle) : TaskState :=
  runChainTask .allDone (sshStateOf o) (renderInstanceIds (createXcom o)).isSome

/-- EC2 termination API calls issued by `terminate_ec2_instance` during
this run: one call for the rendered id, none when rendering failed. -/
def terminateCallsOf (o : Oracle) : List String :=
  match renderInstanceIds (createXcom o) with
  | some i => [i]
  | none => []

def writeLogsStateOf (o : Oracle) : TaskState :=
  runChainTask .allSuccess (terminateStateOf o) o.writeLogsOk

structure PipelineRun where
  pollState : TaskState
  createState : TaskState
  checkState : TaskState
  ipState : TaskState
  sshState : TaskState
  terminateState : TaskState
  writeLogsState : TaskState
  createdIds : List String
  terminateCalls : List String
deriving Repr, DecidableEq

/-- One run of the whole DAG under the scheduler semantics above. -/
def run_training_cycle (o : Oracle) : PipelineRun :=
  { pollState := pollStateOf o
    createState := createStateOf o
    checkState := checkStateOf o
    ipState := ipStateOf o
    sshState := sshStateOf o
    terminateState := terminateStateOf o
    writeLogsState := writeLogsStateOf o
    createdIds := (createXcom o).getD []
    terminateCalls := terminateCallsOf o }

/-! ## Concrete fixtures used by witnesses and counterexamples -/

def cfgExample : MlflowConfig :=
  ⟨"http://mlflow.example:5000", "7", "AKIAEXAMPLE", "secretExample",
   "s3://fd-artifacts", "fd-bucket", "data/fraud.csv"⟩

/-! ## Claims about the lifecycle controller -/

/-- C1: in every pipeline run in which the compute instance was successfully
created, the terminate task (`TriggerRule.ALL_DONE`) issues the termination
call exactly once, for the created instance, whatever the outcomes of the
health check, the address resolution and the remote training execution. -/
theorem c1_create_implies_single_terminate (o : Oracle)
    (h : (run_training_cycle o).createState = TaskState.success) :
    (run_training_cycle o).terminateCalls = [o.instanceId] ∧
    (run_training_cycle o).terminateCalls.length = 1 := by
  have hc : createStateOf o = TaskState.success := h
  have hx : createXcom o = some [o.instanceId] := by simp [createXcom, hc]
  refine ⟨?_, ?_⟩ <;>
    simp [run_training_cycle, terminateCallsOf, hx, renderInstanceIds]

/-- C1 witness: creation succeeds, then the health check, address
resolution and SSH training all fail; the created instance is still
terminated exactly once. -/
theorem c1_witness :
    (run_training_cycle ⟨true, true, false, false, false, true, "i-0abc"⟩).terminateCalls
      = ["i-0abc"] :=
  (c1_create_implies_single_terminate ⟨true, true, false, false, false, true, "i-0abc"⟩
    rfl).1

/-- C2: in every pipeline run in which resource creation failed (the create
task did not succeed, whether it ran and failed or was skipped because the
Jenkins gate failed), no termination API call is issued: the terminate task
still runs under `ALL_DONE`, but its `instance_ids` template indexes a
missing XCom and fails during rendering, before any API call. -/
theorem c2_no_create_no_terminate (o : Oracle)
    (h : (run_training_cycle o).createState ≠ TaskState.success) :
    (run_training_cycle o).terminateCalls = [] := by
  have hc : createStateOf o ≠ TaskState.success := h
  have hx : createXcom o = none := by simp [createXcom, hc]
  simp [run_training_cycle, terminateCallsOf, hx, renderInstanceIds]

/-- C2 witness: the create task runs and fails; no termination call is
issued. -/
theorem c2_witness :
    (run_training_cycle ⟨true, false, true, true, true, true, "i-0abc"⟩).terminateCalls
      = [] :=
  c2_no_create_no_terminate ⟨true, false, true, true, true, true, "i-0abc"⟩ (by decide)

/-! ## Claims about the remote job client -/

/-- C3 counterexample: a run whose connection and exec channel succeed but
whose remote command exits with status 1 — the command ran and failed — is
reported by `run_training_via_paramiko` as success, not as an error: the
task never reads the exit status.  This refutes the claim that a command
that runs but fails surfaces as an error. -/
theorem c3_counterexample_exit_status_ignored :
    (run_training_via_paramiko cfgExample ⟨true, true, 1⟩).outcome = Except.ok () := rfl

/-- C3 (amended): any failure to connect/authenticate or to open the exec
channel surfaces to the caller as an error and is not retried (exactly one
connect attempt, at most one exec attempt, session always closed); but a
command that the channel does run is reported as success regardless of its
exit status. -/
theorem c3_connection_errors_surface_not_retried (cfg : MlflowConfig) (env : SshEnv) :
    (env.connectOk = false →
      (run_training_via_paramiko cfg env).outcome = Except.error SshError.connectFailed) ∧
    (env.connectOk = true → env.execChannelOk = false →
      (run_training_via_paramiko cfg env).outcome = Except.error SshError.execFailed) ∧
    (run_training_via_paramiko cfg env).connectAttempts = 1 ∧
    (run_training_via_paramiko cfg env).execAttempts ≤ 1 ∧
    (run_training_via_paramiko cfg env).closed = true ∧
    (env.connectOk = true → env.execChannelOk = true →
      (run_training_via_paramiko cfg env).outcome = Except.ok ()) := by
  obtain ⟨c, e, x⟩ := env
  cases c <;> cases e <;> simp [run_training_via_paramiko]

/-- C3 witness: a failed exec channel surfaces as an error. -/
theorem c3_witness :
    (run_training_via_paramiko cfgExample ⟨true, false, 0⟩).outcome
      = Except.error SshError.execFailed :=
  (c3_connection_errors_surface_not_retried cfgExample ⟨true, false, 0⟩).2.1 rfl rfl

/-- C9 counterexample: the composite command exports eight environment
variables — the seven configuration values plus a `PATH` extension — not
five as claimed. -/
theorem c9_counterexample_export_count :
    (exportNames (buildTrainingCommand cfgExample)).length = 8 ∧
    (exportNames (buildTrainingCommand cfgExample)).length ≠ 5 := by
  refine ⟨rfl, by decide⟩

/-- C9 (amended): per invocation with a working connection and channel the
client executes exactly one composite command, consisting of exports of the
seven configuration environment variables (tracking URI, experiment id, the
two cloud credential values, artifact root, bucket name, file key) plus a
`PATH` extension, followed by the fixed `mlflow run` training entry
point. -/
theorem c9_single_composite_command (cfg : MlflowConfig) (env : SshEnv)
    (h1 : env.connectOk = true) (h2 : env.execChannelOk = true) :
    (run_training_via_paramiko cfg env).executedCommands = [buildTrainingCommand cfg] ∧
    exportNames (buildTrainingCommand cfg) =
      ["MLFLOW_TRACKING_URI", "MLFLOW_EXPERIMENT_ID", "AWS_ACCESS_KEY_ID",
       "AWS_SECRET_ACCESS_KEY", "ARTIFACT_ROOT", "BUCKET_NAME", "FILE_KEY", "PATH"] ∧
    (buildTrainingCommand cfg).getLast? =
      some (ShellStmt.invoke
        "mlflow run https://github.com/VeeraK81/pipeline-workflow --build-image") := by
  refine ⟨?_, rfl, rfl⟩
  simp [run_training_via_paramiko, h1, h2]

/-- C9 witness: the amended command shape at a concrete configuration. -/
theorem c9_witness :
    (run_training_via_paramiko cfgExample ⟨true, true, 0⟩).executedCommands
      = [buildTrainingCommand cfgExample] :=
  (c9_single_composite_command cfgExample ⟨true, true, 0⟩ rfl rfl).1

/-! ## Claims about the external job poller -/

/-- C5: for every response sequence that is a run of still-building 200
responses followed by a 200 response with `building = false` and
`result = "SUCCESS"`, `poll_jenkins_job` returns success exactly once,
after one status request per response (hence at least one request beyond
the first still-building response when one exists); and success is only
ever returned on a finished 200 response whose result is `"SUCCESS"`. -/
theorem c5_poll_success_exactly_once (jr : JobResponse) (pre : List BuildResponse)
    (term : BuildResponse) (hjr : jr.statusCode = 200)
    (hpre : ∀ r ∈ pre, r.statusCode = 200 ∧ r.building = true)
    (h200 : term.statusCode = 200) (hb : term.building = false)
    (hres : term.result = "SUCCESS") :
    poll_jenkins_job jr (pre ++ [term]) = PollOutcome.success (pre.length + 1) ∧
    (pre ≠ [] → 2 ≤ pre.length + 1) ∧
    (∀ rs m, poll_jenkins_job jr rs = PollOutcome.success m →
      ∃ preR r rest, rs = preR ++ r :: rest ∧
        (∀ p ∈ preR, p.statusCode = 200 ∧ p.building = true) ∧
        r.statusCode = 200 ∧ r.building = false ∧ r.result = "SUCCESS") := by
  refine ⟨?_, ?_, ?_⟩
  · rw [poll_jenkins_job, if_pos hjr,
      pollBuildLoop_append_building pre [term] 0 hpre]
    simp [pollBuildLoop, h200, hb, hres]
  · intro h
    cases pre with
    | nil => simp at h
    | cons r rs => simp
  · intro rs m h
    rw [poll_jenkins_job, if_pos hjr] at h
    exact pollBuildLoop_success_shape rs 0 m h

/-- C5 witness: one still-building response, then a successful terminal
response. -/
theorem c5_witness :
    poll_jenkins_job ⟨200, 12⟩ [⟨200, true, ""⟩, ⟨200, false, "SUCCESS"⟩]
      = PollOutcome.success 2 := by
  have h := (c5_poll_success_exactly_once ⟨200, 12⟩ [⟨200, true, ""⟩]
    ⟨200, false, "SUCCESS"⟩ rfl (by decide) rfl rfl rfl).1
  simpa using h

/-- C7: with any run of still-building 200 responses consumed, a non-200
status response fails immediately with a transport error and no further
status request; a finished 200 response whose result is not `"SUCCESS"`
fails with a job failure and no further status request; and a sequence of
only still-building responses — of any length — is retried throughout
without failing. -/
theorem c7_poll_failure_modes (jr : JobResponse) (pre : List BuildResponse)
    (hjr : jr.statusCode = 200)
    (hpre : ∀ r ∈ pre, r.statusCode = 200 ∧ r.building = true) :
    (∀ bad rest, bad.statusCode ≠ 200 →
      poll_jenkins_job jr (pre ++ bad :: rest) =
        PollOutcome.transportError bad.statusCode (pre.length + 1)) ∧
    (∀ term rest, term.statusCode = 200 → term.building = false →
      term.result ≠ "SUCCESS" →
      poll_jenkins_job jr (pre ++ term :: rest) =
        PollOutcome.jobFailed (pre.length + 1)) ∧
    poll_jenkins_job jr pre = PollOutcome.stillPolling pre.length := by
  refine ⟨?_, ?_, ?_⟩
  · intro bad rest hbad
    rw [poll_jenkins_job, if_pos hjr,
      pollBuildLoop_append_building pre (bad :: rest) 0 hpre]
    simp [pollBuildLoop, hbad]
  · intro term rest h200 hb hres
    rw [poll_jenkins_job, if_pos hjr,
      pollBuildLoop_append_building pre (term :: rest) 0 hpre]
    simp [pollBuildLoop, h200, hb, hres]
  · have h := pollBuildLoop_append_building pre [] 0 hpre
    rw [poll_jenkins_job, if_pos hjr]
    simpa [pollBuildLoop] using h

/-- C7 witness: a 503 after one still-building response is a transport
error after exactly two status requests. -/
theorem c7_witness :
    poll_jenkins_job ⟨200, 12⟩ [⟨200, true, ""⟩, ⟨503, false, ""⟩, ⟨200, false, "SUCCESS"⟩]
      = PollOutcome.transportError 503 2 := by
  have h := (c7_poll_failure_modes ⟨200, 12⟩ [⟨200, true, ""⟩] rfl (by decide)).1
    ⟨503, false, ""⟩ [⟨200, false, "SUCCESS"⟩] (by decide)
  simpa using h

/-! ## Claims about the instance health monitor -/

/-- C6: whenever some poll response reports both the system and instance
sub-checks `"ok"`, `check_ec2_status` terminates and returns healthy after
exactly one describe call per response up to and including that one; on
any prefix of not-ready responses it has not returned; and a response with
no status record at all is one more wait-and-retry, not an error. -/
theorem c6_health_monitor (pre rest : List (List InstanceChecks))
    (good : List InstanceChecks)
    (hpre : ∀ r ∈ pre, notReady r) (hgood : ¬ notReady good) :
    check_ec2_status (pre ++ good :: rest) 0 = HealthOutcome.healthy (pre.length + 1) ∧
    check_ec2_status pre 0 = HealthOutcome.stillWaiting pre.length ∧
    (∀ tail polls, check_ec2_status ([] :: tail) polls = check_ec2_status tail (polls + 1)) := by
  refine ⟨?_, ?_, ?_⟩
  · rw [check_skip_many pre (good :: rest) 0 hpre]
    cases good with
    | nil => exact absurd trivial hgood
    | cons st tl =>
      have hok : st.systemStatus = "ok" ∧ st.instanceStatus = "ok" :=
        not_not.mp hgood
      simp [check_ec2_status, hok]
  · have h := check_skip_many pre [] 0 hpre
    simpa [check_ec2_status] using h
  · intro tail polls
    rfl

/-- C6 witness: a missing-status response and a not-ready response are
retried, then a both-`"ok"` response returns healthy on the third poll. -/
theorem c6_witness :
    check_ec2_status [[], [⟨"initializing", "ok"⟩], [⟨"ok", "ok"⟩]] 0
      = HealthOutcome.healthy 3 := by
  have h := (c6_health_monitor [[], [⟨"initializing", "ok"⟩]] [] [⟨"ok", "ok"⟩]
    (by decide) (by decide)).1
  simpa using h

/-! ## Claims about the artifact/log shipper -/

theorem write_logs_s3_of_pos (today : Nat) (files : List LogFile)
    (h : 0 < bundleTell today files) :
    write_logs_s3 today files true =
      Except.ok ⟨true, bundleTell today files, bundleChunks today files⟩ := by
  simp [write_logs_s3, h]

theorem write_logs_s3_of_pos_fail (today : Nat) (files : List LogFile)
    (h : 0 < bundleTell today files) :
    write_logs_s3 today files false = Except.error ShipError.uploadFailed := by
  simp [write_logs_s3, h]

theorem write_logs_s3_of_zero (today : Nat) (files : List LogFile) (uploadOk : Bool)
    (h : bundleTell today files = 0) :
    write_logs_s3 today files uploadOk = Except.ok ⟨false, 0, []⟩ := by
  simp [write_logs_s3, h]

/-- With every file statable and readable, the bundle is exactly the
today-dated files' header/content/separator chunks, in scan order. -/
theorem bundleChunks_all_readable (today : Nat) (files : List LogFile)
    (hok : ∀ f ∈ files, f.statOk = true ∧ f.readable = true) :
    bundleChunks today files =
      (files.filter (fun f => f.mtimeDate == today)).flatMap
        (fun f => [headerLine f.path, f.content, "\n\n"]) := by
  induction files with
  | nil => rfl
  | cons f fs ih =>
    obtain ⟨hs, hr⟩ := hok f (by simp)
    have hfs : ∀ x ∈ fs, x.statOk = true ∧ x.readable = true :=
      fun x hx => hok x (by simp [hx])
    have ih' := ih hfs
    simp only [bundleChunks] at ih'
    by_cases ht : f.mtimeDate = today
    · simp [bundleChunks, processFile, hs, hr, ht, List.filter_cons,
        List.flatMap_cons, ih']
    · simp [bundleChunks, processFile, hs, ht, List.filter_cons, ih']

/-- C4: with readable files, the log shipper selects exactly the files whose
modification date equals today, concatenates each selected file's content
preceded by its header line (and followed by a blank-line separator) into
one in-memory bundle, uploads that bundle as a single object iff it is
non-empty, and with zero today-dated files performs no upload and reports
zero bytes shipped. -/
theorem c4_ship_todays_logs (today : Nat) (files : List LogFile) (uploadOk : Bool)
    (hok : ∀ f ∈ files, f.statOk = true ∧ f.readable = true) :
    bundleChunks today files =
      (files.filter (fun f => f.mtimeDate == today)).flatMap
        (fun f => [headerLine f.path, f.content, "\n\n"]) ∧
    (files.filter (fun f => f.mtimeDate == today) = [] →
      write_logs_s3 today files uploadOk = Except.ok ⟨false, 0, []⟩) ∧
    (0 < bundleTell today files → uploadOk = true →
      write_logs_s3 today files uploadOk =
        Except.ok ⟨true, bundleTell today files, bundleChunks today files⟩) ∧
    (bundleTell today files = 0 →
      write_logs_s3 today files uploadOk = Except.ok ⟨false, 0, []⟩) := by
  have hchunks := bundleChunks_all_readable today files hok
  refine ⟨hchunks, ?_, ?_, ?_⟩
  · intro hfil
    apply write_logs_s3_of_zero
    rw [bundleTell, hchunks, hfil]
    rfl
  · intro hpos hup
    subst hup
    exact write_logs_s3_of_pos today files hpos
  · intro hzero
    exact write_logs_s3_of_zero today files uploadOk hzero

def filesC4 : List LogFile :=
  [⟨"/logs/run/a.log", true, 100, true, "alpha"⟩,
   ⟨"/logs/run/b.log", true, 100, true, "beta"⟩,
   ⟨"/logs/run/c.log", true, 99, true, "old"⟩]

/-- C4 witness: two today-dated files and one yesterday-dated file — the
bundle holds exactly the two today-dated files' header and content chunks
and the non-empty bundle is uploaded. -/
theorem c4_witness :
    bundleChunks 100 filesC4 =
      [headerLine "/logs/run/a.log", "alpha", "\n\n",
       headerLine "/logs/run/b.log", "beta", "\n\n"] ∧
    write_logs_s3 100 filesC4 true =
      Except.ok ⟨true, bundleTell 100 filesC4, bundleChunks 100 filesC4⟩ := by
  have h := c4_ship_todays_logs 100 filesC4 true (by decide)
  refine ⟨?_, h.2.2.1 (by decide) rfl⟩
  rw [h.1]
  rfl

/-- C8: a bad file never aborts the bundle — every statable, readable,
today-dated file's content is in the bundle whatever the other files do; a
statable today-dated file whose open/read fails contributes only its header
line (it is skipped); and a failure of the final upload aborts the call
with an error. -/
theorem c8_one_bad_file_does_not_abort (today : Nat) (files : List LogFile) :
    (∀ f ∈ files, f.statOk = true → f.mtimeDate = today → f.readable = true →
      f.content ∈ bundleChunks today files) ∧
    (∀ f : LogFile, f.statOk = true → f.mtimeDate = today → f.readable = false →
      processFile today f = [headerLine f.path]) ∧
    (0 < bundleTell today files →
      write_logs_s3 today files false = Except.error ShipError.uploadFailed) := by
  refine ⟨?_, ?_, write_logs_s3_of_pos_fail today files⟩
  · intro f hf hs ht hr
    rw [bundleChunks, List.mem_flatMap]
    exact ⟨f, hf, by simp [processFile, hs, ht, hr]⟩
  · intro f hs ht hr
    simp [processFile, hs, ht, hr]

def filesC8 : List LogFile :=
  [⟨"/logs/run/a.log", true, 100, true, "alpha"⟩,
   ⟨"/logs/run/bad.log", true, 100, false, "unreachable"⟩,
   ⟨"/logs/run/c.log", true, 100, true, "gamma"⟩]

/-- C8 witness: with one unreadable file among three today-dated files, the
two readable files' contents are both in the bundle. -/
theorem c8_witness :
    "alpha" ∈ bundleChunks 100 filesC8 ∧ "gamma" ∈ bundleChunks 100 filesC8 :=
  ⟨(c8_one_bad_file_does_not_abort 100 filesC8).1
      ⟨"/logs/run/a.log", true, 100, true, "alpha"⟩ (by simp [filesC8]) rfl rfl rfl,
   (c8_one_bad_file_does_not_abort 100 filesC8).1
      ⟨"/logs/run/c.log", true, 100, true, "gamma"⟩ (by simp [filesC8]) rfl rfl rfl⟩

/-- C10: the header line is written to the bundle before the file is
opened, so a statable today-dated file whose open/read raises leaves its
header in the bundle; hence a scan whose only today-dated files are all
unreadable still yields a non-empty bundle and triggers an upload with a
positive byte count instead of reporting zero bytes shipped. -/
theorem c10_header_precedes_read (today : Nat) (files : List LogFile)
    (f : LogFile) (hf : f ∈ files) (hs : f.statOk = true)
    (ht : f.mtimeDate = today) (hr : f.readable = false) :
    headerLine f.path ∈ bundleChunks today files ∧
    0 < bundleTell today files ∧
    write_logs_s3 today files true =
      Except.ok ⟨true, bundleTell today files, bundleChunks today files⟩ := by
  have hmem : headerLine f.path ∈ bundleChunks today files := by
    rw [bundleChunks, List.mem_flatMap]
    exact ⟨f, hf, by simp [processFile, hs, ht, hr]⟩
  have hpos : 0 < bundleTell today files := by
    have hle : (headerLine f.path).length ≤ bundleTell today files := by
      rw [bundleTell, concatChunks_length]
      exact List.single_le_sum (by simp) _
        (List.mem_map_of_mem String.length hmem)
    have hlen : (headerLine f.path).length = 19 + f.path.length :=
      headerLine_length f.path
    omega
  exact ⟨hmem, hpos, write_logs_s3_of_pos today files hpos⟩

def filesC10 : List LogFile :=
  [⟨"/logs/run/only.log", true, 100, false, "lost"⟩,
   ⟨"/logs/run/old.log", true, 99, true, "old"⟩]

/-- C10 witness: the only today-dated file is unreadable, yet its header is
in the bundle and an upload with a positive byte count happens. -/
theorem c10_witness :
    headerLine "/logs/run/only.log" ∈ bundleChunks 100 filesC10 ∧
    0 < bundleTell 100 filesC10 ∧
    write_logs_s3 100 filesC10 true =
      Except.ok ⟨true, bundleTell 100 filesC10, bundleChunks 100 filesC10⟩ :=
  c10_header_precedes_read 100 filesC10
    ⟨"/logs/run/only.log", true, 100, false, "lost"⟩ (by simp [filesC10]) rfl rfl rfl

end FraudPipeline
